import Mathlib

/-!
Verification of the ISA group-5 TTS backend (two Node server variants).

The definitions below are a shallow embedding of the JavaScript source:

* the quota ledger and user store (class Database, the ESM variant used by
  routes/user.js and routes/admin.js) become pure functions over an explicit
  table state; each SQL statement is modelled by a list operation with the
  same semantics (SELECT = first-match lookup, INSERT = cons, UPDATE = map
  over matching rows, DELETE = filter);
* route handlers become functions from the request data and the table state
  to a response value and the next state; the TTS handler additionally
  returns the list of steps it performed, in order, so temporal claims can
  be stated;
* the jsonwebtoken and bcrypt libraries are out of scope for the repository
  (they are external dependencies) and are embedded as idealized primitives:
  a token is a term that records the payload, the issue time and the key it
  was signed with, and verification succeeds exactly when the key matches
  and the token is not expired; a bcrypt hash is an injective tag of the
  plaintext, and compare succeeds exactly on the original plaintext;
* JavaScript truthiness on optional strings (undefined, null and the empty
  string are falsy) is modelled by jsFalsy / jsOr.
-/

namespace ISA

/-- JavaScript truthiness for an optional string: undefined and the empty
string are falsy. -/
def jsFalsy (s : Option String) : Bool :=
  match s with
  | none => true
  | some v => v = ""

/-- The expression a || b on optional strings: an empty string on the
left falls through to the right operand, as in JavaScript. -/
def jsOr (a b : Option String) : Option String :=
  match a with
  | some s => if s = "" then b else some s
  | none => b

/-! ### Character-level models of the JavaScript string builtins

The Lean core String functions do not reduce inside the kernel, so the
string operations the source uses (startsWith, substring, split, trim,
toLowerCase, parseInt) are modelled on the underlying character lists with
the same semantics. -/

/-- Whether the pattern list is a prefix of the first list. -/
def listStartsWith : List Char → List Char → Bool
  | _, [] => true
  | [], _ :: _ => false
  | c :: cs, p :: ps => c = p && listStartsWith cs ps

/-- String.prototype.startsWith. -/
def strStartsWith (s pat : String) : Bool :=
  listStartsWith s.data pat.data

/-- String.prototype.substring(n): drop the first n characters. -/
def strDrop (s : String) (n : Nat) : String :=
  String.mk (s.data.drop n)

/-- String.prototype.split(sep) for a one-character separator; splitting
the empty string yields one empty field. -/
def splitOnChar (sep : Char) : List Char → List (List Char)
  | [] => [[]]
  | c :: rest =>
    let r := splitOnChar sep rest
    if c = sep then [] :: r
    else
      match r with
      | [] => [[c]]
      | h :: t => (c :: h) :: t

/-- String.prototype.split(sep) on strings. -/
def strSplitOn (sep : Char) (s : String) : List String :=
  (splitOnChar sep s.data).map String.mk

/-- The whitespace characters String.prototype.trim removes (the ones that
occur in the inputs at hand). -/
def isWsp (c : Char) : Bool :=
  c = ' ' || c = '\t' || c = '\n' || c = '\r'

/-- String.prototype.trim. -/
def strTrim (s : String) : String :=
  String.mk (((s.data.dropWhile isWsp).reverse.dropWhile isWsp).reverse)

/-- Lower-case a single ASCII character. -/
def charLower (c : Char) : Char :=
  if 'A' ≤ c ∧ c ≤ 'Z' then Char.ofNat (c.toNat + 32) else c

/-- String.prototype.toLowerCase (ASCII). -/
def strToLower (s : String) : String :=
  String.mk (s.data.map charLower)

/-- Numeric value of a decimal digit list, most significant first. -/
def charsToNat (l : List Char) : Nat :=
  l.foldl (fun n c => 10 * n + (c.toNat - '0'.toNat)) 0

/-! ## Message strings (lang/messages/en/user.js) -/

def ERROR_AUTHENTICATION : String := "Authentication failed"
def ERROR_API_LIMIT : String := "API call limit exceeded"
def TEXT_REQUIRED : String := "Text is required to synthesize speech"
def LANGUAGE_REQUIRED : String := "Language is required to synthesize speech"
def SERVICE_ERROR : String := "Text-to-speech service returned an error"
def INVALID_USER_ID : String := "Invalid user ID"
def CANNOT_DELETE_SELF : String := "Cannot delete your own account"
def USER_NOT_FOUND : String := "User not found"
def DELETE_SUCCESS : String := "User deleted successfully"
def RESET_SUCCESS : String := "API usage reset successfully"
def ERROR_INVALID_CREDENTIALS : String := "Invalid email or password"
def SUCCESS_LOGIN : String := "Login successful"

/-! ## Quota ledger (class Database: user_api table operations) -/

/-- A row of the user_api table. -/
structure ApiUsageRec where
  api_calls_used : Nat
  api_calls_limit : Nat
deriving DecidableEq, Repr

/-- The default row inserted by the lazy-creation branches:
(api_calls_used, api_calls_limit) = (0, 20). -/
def defaultApiRow : ApiUsageRec := ⟨0, 20⟩

/-- The user_api table: rows of (user_id, record), user_id a primary key. -/
abbrev UserApiTable := List (Nat × ApiUsageRec)

/-- SELECT api_calls_used, api_calls_limit FROM user_api WHERE user_id = ?
(first matching row). -/
def findApiRow (t : UserApiTable) (uid : Nat) : Option ApiUsageRec :=
  match t with
  | [] => none
  | (u, r) :: rest => if u = uid then some r else findApiRow rest uid

/-- UPDATE user_api SET ... WHERE user_id = ?: applies f to every row whose
key matches uid. -/
def sqlUpdateUser (f : ApiUsageRec → ApiUsageRec) (t : UserApiTable) (uid : Nat) :
    UserApiTable :=
  match t with
  | [] => []
  | (u, r) :: rest =>
    (u, if u = uid then f r else r) :: sqlUpdateUser f rest uid

/-- Database.getUserApiUsage: reads the row for uid; if no row exists it
inserts the default (0, 20) row and returns the default (lazy creation).
The readFails flag models the catch branch: on a database error the method
returns the default record and performs no write. -/
def getUserApiUsage (readFails : Bool) (t : UserApiTable) (uid : Nat) :
    ApiUsageRec × UserApiTable :=
  if readFails then (defaultApiRow, t)
  else
    match findApiRow t uid with
    | none => (defaultApiRow, (uid, defaultApiRow) :: t)
    | some r => (r, t)

/-- Result shape of Database.checkApiLimit. -/
structure ApiLimitResult where
  exceeded : Bool
  used : Nat
  limit : Nat
deriving DecidableEq, Repr

/-- Database.checkApiLimit: exceeded := api_calls_used >= api_calls_limit.
The catch branch (readFails) yields { exceeded := false, used := 0,
limit := 20 }, which coincides with computing from the default record. -/
def checkApiLimit (readFails : Bool) (t : UserApiTable) (uid : Nat) :
    ApiLimitResult × UserApiTable :=
  let r := (getUserApiUsage readFails t uid).1
  let t1 := (getUserApiUsage readFails t uid).2
  (⟨decide (r.api_calls_limit ≤ r.api_calls_used), r.api_calls_used, r.api_calls_limit⟩, t1)

/-- Database.incrementApiCalls: ensures the row exists (INSERT of the
default row when the SELECT finds nothing), then
UPDATE user_api SET api_calls_used = api_calls_used + 1 WHERE user_id = ?. -/
def incrementApiCalls (t : UserApiTable) (uid : Nat) : UserApiTable :=
  let t1 :=
    match findApiRow t uid with
    | none => (uid, defaultApiRow) :: t
    | some _ => t
  sqlUpdateUser (fun r => { r with api_calls_used := r.api_calls_used + 1 }) t1 uid

/-- Result shape of Database.resetUserApiUsage and Database.deleteUser. -/
structure DbWriteResult where
  success : Bool
  affectedRows : Nat
deriving DecidableEq, Repr

/-- Database.resetUserApiUsage:
UPDATE user_api SET api_calls_used = 0 WHERE user_id = ?. The happy path
always reports success; affectedRows counts the matched rows. -/
def resetUserApiUsage (t : UserApiTable) (uid : Nat) : DbWriteResult × UserApiTable :=
  (⟨true, (t.filter (fun p => p.1 = uid)).length⟩,
   sqlUpdateUser (fun r => { r with api_calls_used := 0 }) t uid)

/-- The stored used counter for a user, 0 when no row exists (the value the
ledger reports for a missing row). -/
def usedCount (t : UserApiTable) (uid : Nat) : Nat :=
  match findApiRow t uid with
  | none => 0
  | some r => r.api_calls_used

/-! ## Usage logger (Database.getLanguageIdByCode / Database.logApiUsage) -/

/-- The language reference table: rows of (language_id, language_code). -/
abbrev LanguageTable := List (Nat × String)

/-- An api_usage_log row. -/
structure LogEntry where
  user_id : Nat
  language_id : Nat
  endpoint : String
  method : String
deriving DecidableEq, Repr

/-- Database.getLanguageIdByCode: a falsy code yields null; otherwise a
case-insensitive lookup of the trimmed code (LIMIT 1). -/
def getLanguageIdByCode (langs : LanguageTable) (code : String) : Option Nat :=
  if code = "" then none
  else
    match langs.find? (fun p => strToLower p.2 = strToLower (strTrim code)) with
    | some p => some p.1
    | none => none

/-- Database.logApiUsage: resolves the language code; a falsy language id
skips logging and returns false, otherwise appends the row and returns
true. -/
def logApiUsage (langs : LanguageTable) (log : List LogEntry) (uid : Nat)
    (endpoint method code : String) : Bool × List LogEntry :=
  match getLanguageIdByCode langs code with
  | none => (false, log)
  | some lid =>
    if lid = 0 then (false, log)
    else (true, log ++ [⟨uid, lid, endpoint, method⟩])

/-! ## TTS proxy handler (routes/user.js, POST /tts/synthesize) -/

/-- The request body of POST /tts/synthesize; none models an absent
property, so the destructuring defaults (language = "en",
speaker_id = "default") apply exactly when the field is none. -/
structure SynthBody where
  text : Option String
  language : Option String
  speaker_id : Option String
  speaker_wav_base64 : Option String
  speaker_wav_url : Option String
deriving DecidableEq, Repr

/-- The upstream fetch result: HTTP status, whether the body parses as
JSON, and the detail/message fields of the parsed body. -/
structure UpstreamResp where
  status : Nat
  parses : Bool
  detail : Option String
  message : Option String
deriving DecidableEq, Repr

/-- fetch Response.ok: status in [200, 300). -/
def UpstreamResp.ok (r : UpstreamResp) : Bool :=
  decide (200 ≤ r.status) && decide (r.status < 300)

/-- The aiData value after the parse step: the parsed body, or the empty
object when aiResponse.json() throws. -/
def parsedAiData (r : UpstreamResp) : Option String × Option String :=
  if r.parses then (r.detail, r.message) else (none, none)

/-- The apiUsage object attached to the responses of the handler. -/
structure ApiUsageOut where
  used : Nat
  limit : Nat
  remaining : Nat
deriving DecidableEq, Repr

/-- The JSON response of the handler, reduced to the fields the claims are
about; the spread of the upstream payload into the 200 response is carried
opaquely and omitted. The response shape has no apiLimitExceeded field:
the synthesize handler never emits one. -/
structure SynthResp where
  status : Nat
  success : Bool
  message : Option String
  apiUsage : Option ApiUsageOut
deriving DecidableEq, Repr

/-- The steps the handler performs, in source order. quotaReject is the
429 early return taken when the quota gate fires. -/
inductive Step
  | snapshot | quotaReject | validate | upstreamCall | increment | logAppend | respond
deriving DecidableEq, Repr

/-- The server-side state the handler touches. -/
structure SrvState where
  table : UserApiTable
  langs : LanguageTable
  log : List LogEntry
deriving DecidableEq, Repr

/-- A run of the handler: the response, the state after, and the ordered
trace of steps. -/
structure SynthResult where
  resp : SynthResp
  state : SrvState
  trace : List Step
deriving DecidableEq, Repr

/-- The POST /tts/synthesize handler of routes/user.js, after
requireUserAuth has resolved the user: snapshot the quota, return 429 when
exceeded, validate text and language, call upstream, and only on a 2xx
upstream response increment the counter, append the usage log row, refresh
the usage snapshot and respond 200. The await of db.logApiUsage happens
before response.status(200).json(...) writes the response. -/
def ttsSynthesize (readFails : Bool) (st : SrvState) (uid : Nat)
    (body : SynthBody) (upstream : UpstreamResp) : SynthResult :=
  let apiLimit := (checkApiLimit readFails st.table uid).1
  let st1 : SrvState := { st with table := (checkApiLimit readFails st.table uid).2 }
  let apiUsage : ApiUsageOut :=
    ⟨apiLimit.used, apiLimit.limit, apiLimit.limit - apiLimit.used⟩
  if apiLimit.exceeded then
    { resp := ⟨429, false, some ERROR_API_LIMIT, some apiUsage⟩,
      state := st1,
      trace := [.snapshot, .quotaReject, .respond] }
  else
    let language := body.language.getD "en"
    if jsFalsy body.text then
      { resp := ⟨400, false, some TEXT_REQUIRED, some apiUsage⟩,
        state := st1,
        trace := [.snapshot, .validate, .respond] }
    else if language = "" then
      { resp := ⟨400, false, some LANGUAGE_REQUIRED, some apiUsage⟩,
        state := st1,
        trace := [.snapshot, .validate, .respond] }
    else
      let aiData := parsedAiData upstream
      if upstream.ok = false then
        let msg := (jsOr (jsOr aiData.1 aiData.2) (some SERVICE_ERROR)).getD SERVICE_ERROR
        { resp := ⟨upstream.status, false, some msg, some apiUsage⟩,
          state := st1,
          trace := [.snapshot, .validate, .upstreamCall, .respond] }
      else
        let t2 := incrementApiCalls st1.table uid
        let log2 := (logApiUsage st1.langs st1.log uid "/tts/synthesize" "POST" language).2
        let updated := (getUserApiUsage readFails t2 uid).1
        let t3 := (getUserApiUsage readFails t2 uid).2
        let refreshed : ApiUsageOut :=
          ⟨updated.api_calls_used, updated.api_calls_limit,
           updated.api_calls_limit - updated.api_calls_used⟩
        { resp := ⟨200, true, aiData.2, some refreshed⟩,
          state := { st1 with table := t3, log := log2 },
          trace := [.snapshot, .validate, .upstreamCall, .increment, .logAppend, .respond] }

/-- The apiStats middleware (middleware/apiStats.js): it overrides res.end
so the original end runs first and the usage-log write is scheduled via
setImmediate afterwards; its event order is therefore respond before
logAppend, and only when a user or admin is attached to the request. -/
def apiStatsMiddlewareTrace (hasUser : Bool) : List Step :=
  if hasUser then [.respond, .logAppend] else [.respond]

/-! ## Token service (auth.js: generateToken / verifyToken)

jsonwebtoken is an external library; it is embedded as an idealized signing
scheme: a signed token records its payload, issue time and signing key, and
verification succeeds exactly when the key matches and the token has not
expired. A malformed token is any string that is not a token at all. -/

/-- The payload carried by a session token. -/
structure TokenPayload where
  userId : Nat
  email : String
deriving DecidableEq, Repr

/-- Idealized jsonwebtoken token: either a signed payload or a malformed
string. -/
inductive JwtToken
  | signed (userId : Nat) (email : String) (iat : Nat) (secret : String)
  | malformed (raw : String)
deriving DecidableEq, Repr

/-- The failure subtypes jwt.verify can throw. -/
inductive JwtError
  | malformedToken | invalidSignature | expired
deriving DecidableEq, Repr

/-- The JWT_SECRET fallback value of auth.js. -/
def JWT_SECRET : String := "your-secret-key-change-in-production"

/-- JWT_EXPIRY = "7d" in seconds. -/
def JWT_EXPIRY_SECONDS : Nat := 7 * 24 * 60 * 60

/-- jwt.sign(payload, secret, expiresIn): issues a signed token at the
current time. -/
def jwtSign (userId : Nat) (email : String) (secret : String) (now : Nat) : JwtToken :=
  .signed userId email now secret

/-- jwt.verify(token, secret): throws a distinct error for a malformed
token, a bad signature and an expired token, and returns the payload
otherwise. -/
def jwtVerify (t : JwtToken) (secret : String) (now : Nat) :
    Except JwtError TokenPayload :=
  match t with
  | .malformed _ => .error .malformedToken
  | .signed uid email iat s =>
    if s ≠ secret then .error .invalidSignature
    else if iat + JWT_EXPIRY_SECONDS ≤ now then .error .expired
    else .ok ⟨uid, email⟩

/-- auth.js generateToken: signs { userId, email } with JWT_SECRET. -/
def generateToken (userId : Nat) (email : String) (now : Nat) : JwtToken :=
  jwtSign userId email JWT_SECRET now

/-- auth.js verifyToken: try jwt.verify, catch anything and return null;
every failure subtype collapses to none. -/
def verifyToken (t : JwtToken) (now : Nat) : Option TokenPayload :=
  match jwtVerify t JWT_SECRET now with
  | .ok p => some p
  | .error _ => none

/-! ## Token extraction (server.js extractToken; auth.js extractors and
the token selection of authenticateRequest) -/

/-- The parts of an incoming request the extractors read: the raw
Authorization and Cookie headers, and the token cookie as parsed by
cookie-parser (present only in the express variant). -/
structure HttpRequest where
  authorization : Option String
  cookieHeader : Option String
  cookiesToken : Option String
deriving DecidableEq, Repr

/-- Hexadecimal digit value of a character. -/
def hexVal (c : Char) : Option Nat :=
  if '0' ≤ c ∧ c ≤ '9' then some (c.toNat - '0'.toNat)
  else if 'a' ≤ c ∧ c ≤ 'f' then some (c.toNat - 'a'.toNat + 10)
  else if 'A' ≤ c ∧ c ≤ 'F' then some (c.toNat - 'A'.toNat + 10)
  else none

/-- decodeURIComponent on the characters of a cookie value: a %XX escape
becomes the coded character; a malformed escape is kept literally (the
JavaScript builtin would throw there; no caller produces such values). -/
def percentDecodeAux : List Char → List Char
  | [] => []
  | '%' :: h1 :: h2 :: rest =>
    match hexVal h1, hexVal h2 with
    | some a, some b => Char.ofNat (16 * a + b) :: percentDecodeAux rest
    | _, _ => '%' :: percentDecodeAux (h1 :: h2 :: rest)
  | c :: rest => c :: percentDecodeAux rest
termination_by l => l.length

/-- decodeURIComponent, total model. -/
def percentDecode (s : String) : String :=
  String.mk (percentDecodeAux s.data)

/-- server.js parseCookies: split the Cookie header on ';', trim, split
each cookie on '=', and keep only the name=value pairs of exactly two
parts; assignment into the cookies object lets a later pair override an
earlier one. -/
def parseCookies (cookieHeader : Option String) : List (String × String) :=
  match cookieHeader with
  | none => []
  | some h =>
    (strSplitOn ';' h).foldl
      (fun acc cookie =>
        match strSplitOn '=' (strTrim cookie) with
        | [n, v] => acc ++ [(n, percentDecode v)]
        | _ => acc)
      []

/-- Lookup in the parsed cookies object: the last assignment wins. -/
def lookupLast (l : List (String × String)) (k : String) : Option String :=
  l.foldl (fun acc p => if p.1 = k then some p.2 else acc) none

/-- server.js extractToken (legacy variant): the Authorization header
first when it is a truthy Bearer header, else the token cookie
(cookies.token || null, so an empty cookie value yields null). -/
def extractToken (req : HttpRequest) : Option String :=
  let fromHeader : Option String :=
    match req.authorization with
    | some ah =>
      if ah ≠ "" ∧ strStartsWith ah "Bearer " then some (strDrop ah 7) else none
    | none => none
  match fromHeader with
  | some t => some t
  | none => jsOr (lookupLast (parseCookies req.cookieHeader) "token") none

/-- auth.js extractTokenFromCookie: first cookie named token wins; a
value-less token cookie decodes the string undefined. -/
def extractTokenFromCookie (cookieHeader : Option String) : Option String :=
  match cookieHeader with
  | none => none
  | some h =>
    if h = "" then none
    else
      match ((strSplitOn ';' h).map strTrim).find?
          (fun c => ((strSplitOn '=' c).headD "") = "token") with
      | some c => some (percentDecode (((strSplitOn '=' c).get? 1).getD "undefined"))
      | none => none

/-- auth.js extractTokenFromHeader: a truthy Authorization header starting
with Bearer and nothing else. -/
def extractTokenFromHeader (authHeader : Option String) : Option String :=
  match authHeader with
  | none => none
  | some ah =>
    if ah = "" then none
    else if strStartsWith ah "Bearer " then some (strDrop ah 7)
    else none

/-- The token selection of authenticateRequest (server2 express variant,
also used by requireAdminAuth): request.cookies?.token ||
extractTokenFromCookie(cookie header) || extractTokenFromHeader(auth
header) - the cookie sources come first, the bearer header is the last
fallback. -/
def authTokenSelection (req : HttpRequest) : Option String :=
  jsOr (jsOr req.cookiesToken (extractTokenFromCookie req.cookieHeader))
    (extractTokenFromHeader req.authorization)

/-! ## Admin delete-user route (routes/admin.js DELETE /users/:id) -/

/-- A row of the user table, reduced to the columns the route reads. -/
structure UserRec where
  user_id : Nat
  email : String
  is_admin : Bool
deriving DecidableEq, Repr

/-- The user table. -/
abbrev UserTable := List UserRec

/-- Database.getUserById: SELECT ... FROM user WHERE user_id = ?. -/
def getUserById (t : UserTable) (uid : Nat) : Option UserRec :=
  t.find? (fun u => u.user_id = uid)

/-- Database.deleteUser: DELETE FROM user WHERE user_id = ?; the happy
path always reports success with the count of deleted rows. -/
def dbDeleteUser (t : UserTable) (uid : Nat) : DbWriteResult × UserTable :=
  (⟨true, (t.filter (fun u => u.user_id = uid)).length⟩,
   t.filter (fun u => u.user_id ≠ uid))

/-- Whether a character is a decimal digit. -/
def isDigitChar (c : Char) : Bool :=
  decide ('0' ≤ c) && decide (c ≤ '9')

/-- parseInt on a route parameter: the leading decimal-digit prefix of the
trimmed string, none when there is no digit (NaN). -/
def jsParseInt (s : String) : Option Nat :=
  match (strTrim s).data.takeWhile isDigitChar with
  | [] => none
  | ds => some (charsToNat ds)

/-- An admin route response; message is optional because the 403 branch
reads STRINGS.ADMIN.CANNOT_DELETE_ADMIN, a key the language table never
defines, so that response carries no message field. -/
structure AdminResp where
  status : Nat
  success : Bool
  message : Option String
deriving DecidableEq, Repr

/-- The DELETE /admin/users/:id handler after requireAdminAuth: 400 on an
unparsable or zero id, 400 CANNOT_DELETE_SELF when the id is the
own id of the requesting admin, 404 when the target does not exist, 403 when the
target is an admin, else delegate to Database.deleteUser and report 200. -/
def deleteUserRoute (users : UserTable) (adminId : Nat) (idStr : String) :
    AdminResp × UserTable :=
  match jsParseInt idStr with
  | none => (⟨400, false, some INVALID_USER_ID⟩, users)
  | some uid =>
    if uid = 0 then (⟨400, false, some INVALID_USER_ID⟩, users)
    else if uid = adminId then (⟨400, false, some CANNOT_DELETE_SELF⟩, users)
    else
      match getUserById users uid with
      | none => (⟨404, false, some USER_NOT_FOUND⟩, users)
      | some target =>
        if target.is_admin then (⟨403, false, none⟩, users)
        else (⟨200, true, some DELETE_SUCCESS⟩, (dbDeleteUser users uid).2)

/-! ## Legacy login (server.js handleLogin) -/

/-- A row of the legacy users table. -/
structure LegacyUser where
  id : Nat
  firstName : String
  email : String
  password : String
  apiCallsUsed : Nat
deriving DecidableEq, Repr

/-- Idealized bcrypt hash: an injective tag of the plaintext (bcryptjs is
an external library; its contract is that compare succeeds exactly on the
plaintext the hash was produced from). -/
def bcryptHash (plain : String) : String :=
  "$2a$10$" ++ plain

/-- Idealized bcrypt.compare. -/
def bcryptCompare (plain hash : String) : Bool :=
  hash = bcryptHash plain

/-- The parsed JSON body of POST /api/v1/auth/login. -/
structure LoginBody where
  email : Option String
  password : Option String
deriving DecidableEq, Repr

/-- The legacy login response, reduced to the fields the claims are about;
cookieSet records whether a Set-Cookie header for the token was written. -/
structure LoginResp where
  status : Nat
  success : Bool
  message : String
  token : Option JwtToken
  cookieSet : Bool
deriving DecidableEq, Repr

/-- SELECT * FROM users WHERE email = ?. -/
def findLegacyUserByEmail (t : List LegacyUser) (email : String) : Option LegacyUser :=
  t.find? (fun u => u.email = email)

/-- server.js handleLogin: 400 on a falsy email, 401 on an unknown email,
bcrypt verification only when a truthy password is supplied (401 when it
fails), and otherwise a 200 with a freshly signed token both in the body
and as an auth cookie. -/
def handleLogin (users : List LegacyUser) (body : LoginBody) (now : Nat) : LoginResp :=
  if jsFalsy body.email then
    ⟨400, false, ERROR_INVALID_CREDENTIALS, none, false⟩
  else
    match findLegacyUserByEmail users (body.email.getD "") with
    | none => ⟨401, false, ERROR_INVALID_CREDENTIALS, none, false⟩
    | some user =>
      let ok : LoginResp :=
        ⟨200, true, SUCCESS_LOGIN, some (jwtSign user.id user.email JWT_SECRET now), true⟩
      if jsFalsy body.password = false then
        if bcryptCompare (body.password.getD "") user.password = false then
          ⟨401, false, ERROR_INVALID_CREDENTIALS, none, false⟩
        else ok
      else ok

/-- The 401 condition of handleLogin in the words of the claim: the email
is unknown, or a password was supplied and fails the bcrypt comparison. -/
def loginRejectsSpec (users : List LegacyUser) (body : LoginBody) : Bool :=
  match findLegacyUserByEmail users (body.email.getD "") with
  | none => true
  | some u => !(jsFalsy body.password) && !(bcryptCompare (body.password.getD "") u.password)

/-! ## Ledger lemmas -/

theorem findApiRow_sqlUpdateUser (f : ApiUsageRec → ApiUsageRec)
    (t : UserApiTable) (uid : Nat) :
    findApiRow (sqlUpdateUser f t uid) uid = (findApiRow t uid).map f := by
  induction t with
  | nil => simp [sqlUpdateUser, findApiRow]
  | cons p rest ih =>
    obtain ⟨u, r⟩ := p
    by_cases h : u = uid <;> simp [sqlUpdateUser, findApiRow, h, ih]

theorem sqlUpdateUser_idem (f : ApiUsageRec → ApiUsageRec)
    (hf : ∀ r, f (f r) = f r) (t : UserApiTable) (uid : Nat) :
    sqlUpdateUser f (sqlUpdateUser f t uid) uid = sqlUpdateUser f t uid := by
  induction t with
  | nil => simp [sqlUpdateUser]
  | cons p rest ih =>
    obtain ⟨u, r⟩ := p
    by_cases h : u = uid <;> simp [sqlUpdateUser, h, ih, hf]

theorem usedCount_getUserApiUsage (t : UserApiTable) (uid : Nat) :
    usedCount (getUserApiUsage false t uid).2 uid = usedCount t uid := by
  cases h : findApiRow t uid <;>
    simp [getUserApiUsage, usedCount, h, findApiRow, defaultApiRow]

theorem usedCount_incrementApiCalls (t : UserApiTable) (uid : Nat) :
    usedCount (incrementApiCalls t uid) uid = usedCount t uid + 1 := by
  unfold incrementApiCalls
  cases h : findApiRow t uid with
  | none =>
    simp [h, usedCount, findApiRow_sqlUpdateUser, findApiRow, defaultApiRow]
  | some r =>
    simp [h, usedCount, findApiRow_sqlUpdateUser]

/-! ## Concrete fixtures used by witnesses and counterexamples -/

/-- A language table holding English, as seeded at startup. -/
def langsEn : LanguageTable := [(1, "en")]

/-- A well-formed synthesize request body. -/
def bodyHello : SynthBody := ⟨some "hello", some "en", none, none, none⟩

/-- A parsable 2xx upstream response. -/
def upOK : UpstreamResp := ⟨200, true, none, none⟩

/-- A 2xx upstream response whose body does not parse as JSON. -/
def upUnparsable : UpstreamResp := ⟨200, false, none, none⟩

/-- A failed upstream response (simulated 503). -/
def up503 : UpstreamResp := ⟨503, true, none, some "service busy"⟩

/-- Server state with user 1 exactly at the limit (used = limit = 20). -/
def stFull : SrvState := ⟨[(1, ⟨20, 20⟩)], langsEn, []⟩

/-- Server state with user 1 under the limit (used 5 of 20). -/
def stPartial : SrvState := ⟨[(1, ⟨5, 20⟩)], langsEn, []⟩

/-! ## Claims -/

/-- Claim C5: for every pair (used, limit) stored for a user, including
the boundary used = limit, checkApiLimit reports exceeded = true exactly
when used >= limit, and echoes the stored used and limit. -/
theorem c5_check_limit_iff (t : UserApiTable) (uid : Nat) (r : ApiUsageRec)
    (h : findApiRow t uid = some r) :
    ((checkApiLimit false t uid).1.exceeded = true ↔
      r.api_calls_used ≥ r.api_calls_limit) ∧
    (checkApiLimit false t uid).1.used = r.api_calls_used ∧
    (checkApiLimit false t uid).1.limit = r.api_calls_limit := by
  simp [checkApiLimit, getUserApiUsage, h, ge_iff_le]

/-- Witness for C5 at the boundary used = limit = 20. -/
theorem c5_check_limit_iff_witness :
    (((checkApiLimit false [(7, ⟨20, 20⟩)] 7).1.exceeded = true ↔ (20 : Nat) ≥ 20) ∧
      (checkApiLimit false [(7, ⟨20, 20⟩)] 7).1.used = 20 ∧
      (checkApiLimit false [(7, ⟨20, 20⟩)] 7).1.limit = 20) :=
  c5_check_limit_iff [(7, ⟨20, 20⟩)] 7 ⟨20, 20⟩ (by decide)

/-- Claim C7: for every existing user, resetUserApiUsage zeroes the used
counter, leaves the limit unchanged, reports success, and is idempotent:
resetting again changes nothing and also reports success. -/
theorem c7_reset_usage_idempotent (t : UserApiTable) (uid : Nat) (r : ApiUsageRec)
    (h : findApiRow t uid = some r) :
    findApiRow (resetUserApiUsage t uid).2 uid = some ⟨0, r.api_calls_limit⟩ ∧
    (resetUserApiUsage t uid).1.success = true ∧
    (resetUserApiUsage (resetUserApiUsage t uid).2 uid).2 = (resetUserApiUsage t uid).2 ∧
    (resetUserApiUsage (resetUserApiUsage t uid).2 uid).1.success = true := by
  obtain ⟨u0, l0⟩ := r
  refine ⟨?_, rfl, ?_, rfl⟩
  · simp [resetUserApiUsage, findApiRow_sqlUpdateUser, h]
  · simpa [resetUserApiUsage] using
      sqlUpdateUser_idem (fun r => { r with api_calls_used := 0 }) (fun r => rfl) t uid

/-- Witness for C7 on a user with 15 of 20 calls used. -/
theorem c7_reset_usage_idempotent_witness :
    (findApiRow (resetUserApiUsage [(3, ⟨15, 20⟩)] 3).2 3 = some ⟨0, 20⟩ ∧
      (resetUserApiUsage [(3, ⟨15, 20⟩)] 3).1.success = true ∧
      (resetUserApiUsage (resetUserApiUsage [(3, ⟨15, 20⟩)] 3).2 3).2 =
        (resetUserApiUsage [(3, ⟨15, 20⟩)] 3).2 ∧
      (resetUserApiUsage (resetUserApiUsage [(3, ⟨15, 20⟩)] 3).2 3).1.success = true) :=
  c7_reset_usage_idempotent [(3, ⟨15, 20⟩)] 3 ⟨15, 20⟩ (by decide)

/-- Claim C9: quota enforcement fails open: when the ledger read throws,
getUserApiUsage returns the default (0, 20) record, checkApiLimit returns
exceeded = false with used 0 and limit 20, and the synthesize handler
never takes the 429 quota-reject branch. -/
theorem c9_fail_open (t : UserApiTable) (st : SrvState) (uid : Nat)
    (body : SynthBody) (up : UpstreamResp) :
    (getUserApiUsage true t uid).1 = ⟨0, 20⟩ ∧
    (checkApiLimit true t uid).1 = ⟨false, 0, 20⟩ ∧
    Step.quotaReject ∉ (ttsSynthesize true st uid body up).trace := by
  refine ⟨rfl, rfl, ?_⟩
  by_cases h1 : jsFalsy body.text <;>
  by_cases h2 : body.language.getD "en" = "" <;>
  by_cases h3 : up.ok <;>
    simp [ttsSynthesize, checkApiLimit, getUserApiUsage, defaultApiRow, h1, h2, h3]

/-- Claim C1 is false on the code: at the boundary used = limit = 20 the
synthesize handler returns a hard 429, never calls upstream, and takes the
quota-reject early return instead of proceeding with a warning flag. -/
theorem c1_soft_gate_counterexample :
    (ttsSynthesize false stFull 1 bodyHello upOK).resp.status = 429 ∧
    (ttsSynthesize false stFull 1 bodyHello upOK).resp.success = false ∧
    Step.upstreamCall ∉ (ttsSynthesize false stFull 1 bodyHello upOK).trace ∧
    Step.quotaReject ∈ (ttsSynthesize false stFull 1 bodyHello upOK).trace := by
  decide

/-- Claim C1 as amended: for every authenticated user whose counter has
reached the limit, the synthesize handler refuses the request with a hard
429 carrying the limit-exceeded message and the pre-call usage snapshot;
the upstream call is not made and the usage log is untouched. -/
theorem c1_quota_hard_gate (st : SrvState) (uid : Nat) (body : SynthBody)
    (up : UpstreamResp)
    (h : (checkApiLimit false st.table uid).1.exceeded = true) :
    (ttsSynthesize false st uid body up).resp =
      ⟨429, false, some ERROR_API_LIMIT,
        some ⟨(checkApiLimit false st.table uid).1.used,
              (checkApiLimit false st.table uid).1.limit,
              (checkApiLimit false st.table uid).1.limit -
                (checkApiLimit false st.table uid).1.used⟩⟩ ∧
    Step.upstreamCall ∉ (ttsSynthesize false st uid body up).trace ∧
    (ttsSynthesize false st uid body up).state.log = st.log := by
  simp [ttsSynthesize, h]

/-- Witness for C1 as amended, at used = limit = 20. -/
theorem c1_quota_hard_gate_witness :
    ((ttsSynthesize false stFull 1 bodyHello upOK).resp =
        ⟨429, false, some ERROR_API_LIMIT, some ⟨20, 20, 0⟩⟩ ∧
      Step.upstreamCall ∉ (ttsSynthesize false stFull 1 bodyHello upOK).trace ∧
      (ttsSynthesize false stFull 1 bodyHello upOK).state.log = stFull.log) := by
  have h := c1_quota_hard_gate stFull 1 bodyHello upOK (by decide)
  exact h

/-- Claim C2 is false as stated: a 2xx upstream response whose body fails
to parse is not a success in the sense of the claim (2xx with parsable body),
yet the handler still increments the quota counter. -/
theorem c2_unparsable_2xx_counterexample :
    upUnparsable.parses = false ∧ upUnparsable.status = 200 ∧
    usedCount (ttsSynthesize false stPartial 1 bodyHello upUnparsable).state.table 1 =
      usedCount stPartial.table 1 + 1 := by
  decide

/-- Claim C2 as amended: the quota counter is incremented (and the log can
grow) only on a 2xx upstream status, parsable or not; a non-2xx upstream
response leaves the counter value and the usage log exactly as they were
before the request. -/
theorem c2_increment_iff_upstream_2xx (st : SrvState) (uid : Nat)
    (body : SynthBody) (up : UpstreamResp)
    (hexc : (checkApiLimit false st.table uid).1.exceeded = false)
    (htext : jsFalsy body.text = false)
    (hlang : body.language.getD "en" ≠ "") :
    (up.ok = false →
      usedCount (ttsSynthesize false st uid body up).state.table uid =
        usedCount st.table uid ∧
      (ttsSynthesize false st uid body up).state.log = st.log) ∧
    (up.ok = true →
      usedCount (ttsSynthesize false st uid body up).state.table uid =
        usedCount st.table uid + 1) := by
  constructor
  · intro hok
    have hcu : (checkApiLimit false st.table uid).2 = (getUserApiUsage false st.table uid).2 := rfl
    simp [ttsSynthesize, hexc, htext, hlang, hok]
    rw [hcu]
    exact usedCount_getUserApiUsage st.table uid
  · intro hok
    have hcu : (checkApiLimit false st.table uid).2 = (getUserApiUsage false st.table uid).2 := rfl
    simp [ttsSynthesize, hexc, htext, hlang, hok]
    rw [usedCount_getUserApiUsage, hcu, usedCount_incrementApiCalls,
      usedCount_getUserApiUsage]

/-- Witness for C2 as amended: user at 5 of 20; a 503 upstream leaves the
counter at 5; a 200 upstream takes it to 6. -/
theorem c2_increment_iff_upstream_2xx_witness :
    ((up503.ok = false →
        usedCount (ttsSynthesize false stPartial 1 bodyHello up503).state.table 1 =
          usedCount stPartial.table 1 ∧
        (ttsSynthesize false stPartial 1 bodyHello up503).state.log = stPartial.log) ∧
      (up503.ok = true →
        usedCount (ttsSynthesize false stPartial 1 bodyHello up503).state.table 1 =
          usedCount stPartial.table 1 + 1)) :=
  c2_increment_iff_upstream_2xx stPartial 1 bodyHello up503
    (by decide) (by decide) (by decide)

/-- Claim C8 is false as stated: in a successful concrete run the quota
snapshot precedes validation, and the usage-log append of the route precedes
the write of the response rather than following it. -/
theorem c8_order_counterexample :
    (ttsSynthesize false stPartial 1 bodyHello upOK).trace =
      [.snapshot, .validate, .upstreamCall, .increment, .logAppend, .respond] ∧
    (ttsSynthesize false stPartial 1 bodyHello upOK).trace.indexOf Step.snapshot <
      (ttsSynthesize false stPartial 1 bodyHello upOK).trace.indexOf Step.validate ∧
    (ttsSynthesize false stPartial 1 bodyHello upOK).trace.indexOf Step.logAppend <
      (ttsSynthesize false stPartial 1 bodyHello upOK).trace.indexOf Step.respond := by
  decide

/-- Claim C8 as amended: within a single successful request the steps run
strictly sequentially in the order quota snapshot, validate, upstream
call, increment, usage-log append, respond - the snapshot comes before
validation and the log append of the route itself is awaited before the response
is written; only the separate apiStats middleware schedules its log write
after the response has been flushed. -/
theorem c8_step_order (st : SrvState) (uid : Nat) (body : SynthBody)
    (up : UpstreamResp)
    (hexc : (checkApiLimit false st.table uid).1.exceeded = false)
    (htext : jsFalsy body.text = false)
    (hlang : body.language.getD "en" ≠ "")
    (hok : up.ok = true) :
    (ttsSynthesize false st uid body up).trace =
      [.snapshot, .validate, .upstreamCall, .increment, .logAppend, .respond] ∧
    apiStatsMiddlewareTrace true = [.respond, .logAppend] := by
  constructor
  · simp [ttsSynthesize, hexc, htext, hlang, hok]
  · rfl

/-- Witness for C8 as amended on a successful run. -/
theorem c8_step_order_witness :
    ((ttsSynthesize false stPartial 1 bodyHello upOK).trace =
        [.snapshot, .validate, .upstreamCall, .increment, .logAppend, .respond] ∧
      apiStatsMiddlewareTrace true = [.respond, .logAppend]) :=
  c8_step_order stPartial 1 bodyHello upOK (by decide) (by decide) (by decide) (by decide)

/-- Claim C3: issuing a token for (userId, email) and verifying it before
expiry returns exactly that payload; a malformed token, a token signed
with a different key, and an expired token all verify to the same uniform
invalid result none, with no failure subtype exposed. -/
theorem c3_token_roundtrip_uniform_invalid (userId : Nat) (email : String)
    (issuedAt checkTime : Nat)
    (hfresh : checkTime < issuedAt + JWT_EXPIRY_SECONDS) :
    verifyToken (generateToken userId email issuedAt) checkTime =
      some ⟨userId, email⟩ ∧
    (∀ raw, verifyToken (.malformed raw) checkTime = none) ∧
    (∀ uid em iat s, s ≠ JWT_SECRET →
      verifyToken (.signed uid em iat s) checkTime = none) ∧
    (∀ uid em iat, iat + JWT_EXPIRY_SECONDS ≤ checkTime →
      verifyToken (.signed uid em iat JWT_SECRET) checkTime = none) := by
  refine ⟨?_, fun raw => rfl, ?_, ?_⟩
  · simp [verifyToken, generateToken, jwtSign, jwtVerify, Nat.not_le.mpr hfresh]
  · intro uid em iat s hs
    simp [verifyToken, jwtVerify, hs]
  · intro uid em iat hexp
    simp [verifyToken, jwtVerify, hexp]

/-- Witness for C3: round trip at userId 1, issued at time 0, checked at
time 10, well inside the 7-day expiry. -/
theorem c3_token_roundtrip_witness :
    verifyToken (generateToken 1 "a@b.com" 0) 10 = some ⟨1, "a@b.com"⟩ :=
  (c3_token_roundtrip_uniform_invalid 1 "a@b.com" 0 10 (by decide)).1

/-- A request carrying both a bearer Authorization header and a token
cookie. -/
def reqBoth : HttpRequest :=
  ⟨some "Bearer headerTok", some "token=cookieTok", some "cookieTok"⟩

/-- Claim C4 is false for the express variant: on a request carrying both
a bearer header and a token cookie, the token selection of
authenticateRequest takes the cookie value, not the bearer value; only the
legacy extractToken prefers the header. -/
theorem c4_precedence_counterexample :
    authTokenSelection reqBoth = some "cookieTok" ∧
    authTokenSelection reqBoth ≠ some "headerTok" ∧
    extractToken reqBoth = some "headerTok" := by
  decide

/-- Claim C4 as amended: on a request carrying both a bearer header and a
nonempty token cookie, the legacy extractToken of server.js uses the
bearer header and falls back to the cookie only without one, while the
authenticateRequest selection of the express variant uses the cookie token
first and falls back to the bearer header only when no cookie token is
present. -/
theorem c4_extraction_precedence (ah ct : String) (ch : Option String)
    (hb : strStartsWith ah "Bearer " = true) (hne : ah ≠ "") (hct : ct ≠ "") :
    extractToken ⟨some ah, ch, some ct⟩ = some (strDrop ah 7) ∧
    authTokenSelection ⟨some ah, ch, some ct⟩ = some ct ∧
    extractTokenFromHeader (some ah) = some (strDrop ah 7) ∧
    authTokenSelection ⟨some ah, ch, none⟩ =
      jsOr (extractTokenFromCookie ch) (some (strDrop ah 7)) := by
  refine ⟨?_, ?_, ?_, ?_⟩
  · simp [extractToken, hb, hne]
  · simp [authTokenSelection, jsOr, hct]
  · simp [extractTokenFromHeader, hb, hne]
  · show jsOr (jsOr none (extractTokenFromCookie ch)) (extractTokenFromHeader (some ah)) = _
    rw [show jsOr none (extractTokenFromCookie ch) = extractTokenFromCookie ch from rfl]
    congr 1
    simp [extractTokenFromHeader, hb, hne]

/-- Witness for C4 as amended at concrete header and cookie values. -/
theorem c4_extraction_precedence_witness :
    (extractToken ⟨some "Bearer headerTok", some "token=cookieTok", some "cookieTok"⟩ =
        some "headerTok" ∧
      authTokenSelection
          ⟨some "Bearer headerTok", some "token=cookieTok", some "cookieTok"⟩ =
        some "cookieTok" ∧
      extractTokenFromHeader (some "Bearer headerTok") = some "headerTok" ∧
      authTokenSelection ⟨some "Bearer headerTok", some "token=cookieTok", none⟩ =
        jsOr (extractTokenFromCookie (some "token=cookieTok")) (some "headerTok")) :=
  c4_extraction_precedence "Bearer headerTok" "cookieTok" (some "token=cookieTok")
    (by decide) (by decide) (by decide)

/-- Claim C6: the admin delete-user route refuses a self-delete with 400
CANNOT_DELETE_SELF leaving the table unchanged, refuses deleting an admin
with 403 leaving the table unchanged, and only otherwise delegates the
delete to Database.deleteUser. -/
theorem c6_delete_user_guards (users : UserTable) (adminId uid : Nat)
    (idStr : String) (hp : jsParseInt idStr = some uid) (h0 : uid ≠ 0) :
    (uid = adminId →
      deleteUserRoute users adminId idStr =
        (⟨400, false, some CANNOT_DELETE_SELF⟩, users)) ∧
    (∀ target, uid ≠ adminId → getUserById users uid = some target →
      target.is_admin = true →
      deleteUserRoute users adminId idStr = (⟨403, false, none⟩, users)) ∧
    (∀ target, uid ≠ adminId → getUserById users uid = some target →
      target.is_admin = false →
      deleteUserRoute users adminId idStr =
        (⟨200, true, some DELETE_SUCCESS⟩, (dbDeleteUser users uid).2)) := by
  refine ⟨?_, ?_, ?_⟩
  · intro hself
    subst hself
    simp [deleteUserRoute, hp, h0]
  · intro target hne hfound hadm
    simp [deleteUserRoute, hp, h0, hne, hfound, hadm]
  · intro target hne hfound hadm
    simp [deleteUserRoute, hp, h0, hne, hfound, hadm]

/-- A two-user table: admin 1 and regular user 2. -/
def usersTwo : UserTable := [⟨1, "admin@x.com", true⟩, ⟨2, "user@x.com", false⟩]

/-- Witness for C6: admin 1 deleting id 1 is refused with 400
CANNOT_DELETE_SELF and the table is unchanged. -/
theorem c6_delete_user_guards_witness :
    deleteUserRoute usersTwo 1 "1" = (⟨400, false, some CANNOT_DELETE_SELF⟩, usersTwo) :=
  (c6_delete_user_guards usersTwo 1 1 "1" (by decide) (by decide)).1 rfl

/-- Claim C10: in the legacy server, a login body naming a registered
email with no password field skips bcrypt verification and yields a 200
with a fresh signed token in the body and an auth cookie; and across all
bodies, a 401 arises exactly when the email field is truthy and either
the email is unknown or a supplied password fails the bcrypt comparison. -/
theorem c10_passwordless_login (users : List LegacyUser) (e : String)
    (user : LegacyUser) (now : Nat)
    (he : e ≠ "") (hu : findLegacyUserByEmail users e = some user) :
    handleLogin users ⟨some e, none⟩ now =
      ⟨200, true, SUCCESS_LOGIN, some (jwtSign user.id user.email JWT_SECRET now), true⟩ ∧
    (∀ body : LoginBody, (handleLogin users body now).status = 401 ↔
      (jsFalsy body.email = false ∧ loginRejectsSpec users body = true)) := by
  constructor
  · simp [handleLogin, jsFalsy, he, hu]
  · intro body
    unfold handleLogin loginRejectsSpec
    by_cases h1 : jsFalsy body.email
    · simp [h1]
    · cases hf : findLegacyUserByEmail users (body.email.getD "") with
      | none => simp [h1, hf]
      | some u =>
        by_cases h2 : jsFalsy body.password
        · simp [h1, hf, h2]
        · by_cases h3 : bcryptCompare (body.password.getD "") u.password
          · simp [h1, hf, h2, h3]
          · simp [h1, hf, h2, h3]

/-- A legacy users table with one registered user. -/
def legacyUsers : List LegacyUser := [⟨1, "Ann", "a@b.com", bcryptHash "pw", 0⟩]

/-- Witness for C10: logging in with the registered email and no password
field returns 200 with a fresh token and cookie. -/
theorem c10_passwordless_login_witness :
    handleLogin legacyUsers ⟨some "a@b.com", none⟩ 5 =
      ⟨200, true, SUCCESS_LOGIN, some (jwtSign 1 "a@b.com" JWT_SECRET 5), true⟩ :=
  (c10_passwordless_login legacyUsers "a@b.com" ⟨1, "Ann", "a@b.com", bcryptHash "pw", 0⟩ 5
    (by decide) (by decide)).1

end ISA
